import Mathlib

/-!
Verification of the pid-simulation repository.

The Python sources are embedded shallowly over the rationals: every float
value of the program is modelled as a rational number, so all arithmetic is
exact.  Python operations that can raise an exception (division by zero,
indexing an empty list, an integer modulo by zero) are modelled as
Option-valued functions, with none marking the raised exception.  Gaussian
noise draws, which the program takes from a global random generator, are
modelled as explicit input streams.
-/

/-! ## Controller (src/pid_controller.py) -/

/-- State of PIDController: the constructor arguments, the internal state
variables, the optional output limits and the five history lists, exactly
the attributes set in PIDController.__init__. -/
structure PIDController where
  kp : ℚ
  ki : ℚ
  kd : ℚ
  setpoint : ℚ
  sample_time : ℚ
  last_error : ℚ
  integral : ℚ
  last_time : Option ℚ
  output_min : Option ℚ
  output_max : Option ℚ
  time_history : List ℚ
  error_history : List ℚ
  output_history : List ℚ
  setpoint_history : List ℚ
  process_variable_history : List ℚ
  deriving DecidableEq

/-- PIDController.__init__: gains, setpoint and sample_time from the caller,
zeroed internal state, no output limits, empty histories. -/
def mkPIDController (kp ki kd setpoint sample_time : ℚ) : PIDController :=
  { kp := kp, ki := ki, kd := kd, setpoint := setpoint,
    sample_time := sample_time,
    last_error := 0, integral := 0, last_time := none,
    output_min := none, output_max := none,
    time_history := [], error_history := [], output_history := [],
    setpoint_history := [], process_variable_history := [] }

/-- PIDController.set_setpoint. -/
def PIDController.set_setpoint (c : PIDController) (setpoint : ℚ) : PIDController :=
  { c with setpoint := setpoint }

/-- PIDController.set_tunings. -/
def PIDController.set_tunings (c : PIDController) (kp ki kd : ℚ) : PIDController :=
  { c with kp := kp, ki := ki, kd := kd }

/-- PIDController.set_output_limits. -/
def PIDController.set_output_limits (c : PIDController) (min_output max_output : ℚ) :
    PIDController :=
  { c with output_min := some min_output, output_max := some max_output }

/-- PIDController.reset: clears the internal state variables and the five
history lists; gains, setpoint, sample_time and output limits survive. -/
def PIDController.reset (c : PIDController) : PIDController :=
  { c with last_error := 0, integral := 0, last_time := none,
           time_history := [], error_history := [], output_history := [],
           setpoint_history := [], process_variable_history := [] }

/-- The output-limit stage of PIDController.compute (lines 115-122): the
if / elif pair that clamps the output to a violated bound and, on a clamp,
reverts the integral increment incr that the same step just applied.
Returns the (possibly clamped) output and the resulting accumulator. -/
def applyLimits (omin omax : Option ℚ) (output integral incr : ℚ) : ℚ × ℚ :=
  match omin, omax with
  | some m, some M =>
      if output < m then (m, integral - incr)
      else if M < output then (M, integral - incr)
      else (output, integral)
  | some m, none =>
      if output < m then (m, integral - incr) else (output, integral)
  | none, some M =>
      if M < output then (M, integral - incr) else (output, integral)
  | none, none => (output, integral)

/-- PIDController.compute.  Returns the updated controller state together
with the returned output.  The three early paths of the source are kept:
the uninitialized seed step (last_time is None), the stale-sample path
(dt <= 0), and the full PID step with output limiting, history logging and
state update. -/
def PIDController.compute (c : PIDController) (process_variable current_time : ℚ) :
    PIDController × ℚ :=
  match c.last_time with
  | none =>
      ({ c with last_time := some current_time,
                last_error := c.setpoint - process_variable }, 0)
  | some lastT =>
      if current_time - lastT ≤ 0 then (c, 0)
      else
        let error := c.setpoint - process_variable
        let dt := current_time - lastT
        let integral0 := c.integral + error * dt
        let output0 := c.kp * error + c.ki * integral0
            + c.kd * (error - c.last_error) / dt
        let res := applyLimits c.output_min c.output_max output0 integral0 (error * dt)
        ({ c with integral := res.2,
                  time_history := c.time_history ++ [current_time],
                  error_history := c.error_history ++ [error],
                  output_history := c.output_history ++ [res.1],
                  setpoint_history := c.setpoint_history ++ [c.setpoint],
                  process_variable_history :=
                    c.process_variable_history ++ [process_variable],
                  last_error := error,
                  last_time := some current_time }, res.1)

/-- The unclamped output of a compute step: proportional plus integral
(with the accumulator increment of this step applied) plus derivative,
exactly the value the source computes on line 112 before limiting. -/
def PIDController.rawOutput (c : PIDController) (process_variable current_time : ℚ) : ℚ :=
  let error := c.setpoint - process_variable
  let dt := current_time - (c.last_time.getD 0)
  c.kp * error + c.ki * (c.integral + error * dt)
    + c.kd * (error - c.last_error) / dt

/-- Python truthiness of the optional last timestamp: None is falsy and so
is the float 0.0.  This models the test on line 151 of the source, which
reads  if self._last_time  rather than  if self._last_time is not None. -/
def qTruthy : Option ℚ → Bool
  | none => false
  | some t => decide (t ≠ 0)

/-- PIDController.get_components: P and I from the current setpoint and
accumulator, D from the CONFIGURED sample period, gated by the truthiness
of the recorded last timestamp.  none models the ZeroDivisionError raised
by the D division when the configured sample period is zero (that division
is only evaluated when the truthiness gate holds). -/
def PIDController.get_components (c : PIDController) (process_variable : ℚ) :
    Option (ℚ × ℚ × ℚ) :=
  let error := c.setpoint - process_variable
  let p_component := c.kp * error
  let i_component := c.ki * c.integral
  if qTruthy c.last_time then
    if c.sample_time = 0 then none
    else some (p_component, i_component,
      c.kd * (error - c.last_error) / c.sample_time)
  else some (p_component, i_component, 0)

/-! ## Claims C1, C2, C3 -/

/-- Claim C1: for a controller with both output bounds set, on an
initialized compute step with positive dt whose unclamped output falls
outside the interval from m to M, compute returns the violated bound and
the integral accumulator ends the step with exactly its starting value
(the error times dt increment is reverted). -/
theorem c1_anti_windup (c : PIDController) (pv t lt m M : ℚ)
    (hlt : c.last_time = some lt)
    (hmin : c.output_min = some m) (hmax : c.output_max = some M)
    (hdt : 0 < t - lt) (hmM : m ≤ M)
    (hout : c.rawOutput pv t < m ∨ M < c.rawOutput pv t) :
    (c.compute pv t).2 = (if c.rawOutput pv t < m then m else M) ∧
    (c.compute pv t).1.integral = c.integral := by
  have hdt' : ¬ (t - lt ≤ 0) := not_le.mpr hdt
  simp only [PIDController.compute, PIDController.rawOutput, hlt, hmin, hmax,
    Option.getD_some, if_neg hdt', applyLimits] at *
  rcases hout with hlow | hhigh
  · rw [if_pos hlow]
    simp only [if_pos hlow]
    constructor
    · trivial
    · ring
  · have hnotlow : ¬ (c.kp * (c.setpoint - pv)
        + c.ki * (c.integral + (c.setpoint - pv) * (t - lt))
        + c.kd * ((c.setpoint - pv) - c.last_error) / (t - lt) < m) := by
      intro hcon
      exact absurd (lt_trans hhigh hcon) (not_lt.mpr hmM)
    rw [if_neg hnotlow]
    simp only [if_neg hnotlow, if_pos hhigh]
    constructor
    · trivial
    · ring

/-- Witness for C1 at a concrete saturating step: kp 1, setpoint 10,
bounds -1 and 1, initialized at time 0, raw output 10 exceeds the maximum,
so compute returns 1 and the accumulator is unchanged. -/
theorem c1_anti_windup_witness :
    ((({ mkPIDController 1 0 0 10 1 with
          last_time := some 0 }).set_output_limits (-1) 1).compute 0 1).2
      = (if (({ mkPIDController 1 0 0 10 1 with
            last_time := some 0 }).set_output_limits (-1) 1).rawOutput 0 1 < (-1 : ℚ)
          then (-1 : ℚ) else 1) ∧
    ((({ mkPIDController 1 0 0 10 1 with
          last_time := some 0 }).set_output_limits (-1) 1).compute 0 1).1.integral
      = (({ mkPIDController 1 0 0 10 1 with
          last_time := some 0 }).set_output_limits (-1) 1).integral :=
  c1_anti_windup _ 0 1 0 (-1) 1 rfl rfl rfl (by norm_num) (by norm_num)
    (by right; norm_num [PIDController.rawOutput, mkPIDController,
          PIDController.set_output_limits])

/-- Claim C2: an uninitialized controller (last_time None, as after
construction or reset) computes 0 on any inputs, and the only state change
is the recording of the timestamp and of the error as the last values; in
particular the histories and the integral accumulator are untouched. -/
theorem c2_seed_step (c : PIDController) (pv t : ℚ) (h : c.last_time = none) :
    c.compute pv t
      = ({ c with last_time := some t, last_error := c.setpoint - pv }, 0) ∧
    (c.compute pv t).1.integral = c.integral ∧
    (c.compute pv t).1.error_history = c.error_history ∧
    (c.compute pv t).1.time_history = c.time_history ∧
    (∀ kp ki kd sp st, (mkPIDController kp ki kd sp st).last_time = none) ∧
    (∀ d : PIDController, d.reset.last_time = none) := by
  simp [PIDController.compute, h, mkPIDController, PIDController.reset]

/-- Witness for C2 at a concrete uninitialized controller. -/
theorem c2_seed_step_witness :
    (mkPIDController 1 2 3 4 1).compute 10 7
      = ({ mkPIDController 1 2 3 4 1 with
            last_time := some 7, last_error := (4 : ℚ) - 10 }, 0) := by
  have h := c2_seed_step (mkPIDController 1 2 3 4 1) 10 7 rfl
  exact h.1

/-- Claim C3: for an initialized controller, a compute call whose
timestamp does not advance past the recorded last timestamp (dt less than
or equal to zero) returns 0 and leaves the whole controller state exactly
unchanged. -/
theorem c3_stale_sample_noop (c : PIDController) (pv t lt : ℚ)
    (hlt : c.last_time = some lt) (hdt : t - lt ≤ 0) :
    c.compute pv t = (c, 0) := by
  simp [PIDController.compute, hlt, hdt]

/-- Witness for C3: a controller initialized at time 1, asked to compute
at earlier time 0, is returned unchanged with output 0. -/
theorem c3_stale_sample_noop_witness :
    ({ mkPIDController 1 2 3 4 1 with last_time := some 1 }).compute 5 0
      = ({ mkPIDController 1 2 3 4 1 with last_time := some 1 }, 0) :=
  c3_stale_sample_noop _ 5 0 1 rfl (by norm_num)

/-! ## Plant models (src/plant_models.py)

Each plant is a structure holding the attributes its __init__ sets.  The
update methods return an Option: none models the ZeroDivisionError that
Python raises when the divisor parameter of the variant is zero.  The
Gaussian measurement-noise draw of FirstOrderSystem.update is passed in as
an explicit argument; it is added to the returned output only, never to the
stored state, and only when noise_level is positive, as in the source.
TankSystem.update applies math.sqrt, which has no rational counterpart, so
it is parameterized by an arbitrary square-root function. -/

/-- FirstOrderSystem attributes, as set by __init__ (which performs no
validation of time_constant). -/
structure FirstOrderSystem where
  state : ℚ
  initial_state : ℚ
  time_constant : ℚ
  gain : ℚ
  noise_level : ℚ
  deriving DecidableEq

/-- FirstOrderSystem.__init__: stores the parameters unchecked. -/
def mkFirstOrderSystem (time_constant gain initial_state noise_level : ℚ) :
    FirstOrderSystem :=
  { state := initial_state, initial_state := initial_state,
    time_constant := time_constant, gain := gain, noise_level := noise_level }

/-- PlantModel.reset as inherited by FirstOrderSystem. -/
def FirstOrderSystem.reset (s : FirstOrderSystem) : FirstOrderSystem :=
  { s with state := s.initial_state }

/-- FirstOrderSystem.update: one Euler step of dy/dt = (K u - y) / tau.
none models the ZeroDivisionError raised when time_constant is zero. -/
def FirstOrderSystem.update (s : FirstOrderSystem) (control_input dt noise : ℚ) :
    Option (FirstOrderSystem × ℚ) :=
  if s.time_constant = 0 then none
  else
    let dydt := (s.gain * control_input - s.state) / s.time_constant
    let state2 := s.state + dydt * dt
    let output := if 0 < s.noise_level then state2 + noise else state2
    some ({ s with state := state2 }, output)

/-- MotorModel attributes, as set by __init__ (again with no validation of
the inductance or inertia divisors). -/
structure MotorModel where
  state : ℚ
  initial_state : ℚ
  R : ℚ
  L : ℚ
  Kt : ℚ
  Ke : ℚ
  J : ℚ
  B : ℚ
  current : ℚ
  initial_current : ℚ
  deriving DecidableEq

/-- MotorModel.__init__: stores the parameters unchecked, with
Kt = Ke = motor_constant. -/
def mkMotorModel (resistance inductance motor_constant inertia friction
    initial_speed initial_current : ℚ) : MotorModel :=
  { state := initial_speed, initial_state := initial_speed,
    R := resistance, L := inductance, Kt := motor_constant,
    Ke := motor_constant, J := inertia, B := friction,
    current := initial_current, initial_current := initial_current }

/-- MotorModel.reset. -/
def MotorModel.reset (m : MotorModel) : MotorModel :=
  { m with state := m.initial_state, current := m.initial_current }

/-- MotorModel.update: electrical step dividing by L, then mechanical step
dividing by J; none models the ZeroDivisionError when either divisor is
zero, in source order (the electrical division happens first). -/
def MotorModel.update (m : MotorModel) (voltage dt load_torque : ℚ) :
    Option (MotorModel × ℚ) :=
  let back_emf := m.Ke * m.state
  if m.L = 0 then none
  else
    let di_dt := (voltage - m.R * m.current - back_emf) / m.L
    let current2 := m.current + di_dt * dt
    let motor_torque := m.Kt * current2
    if m.J = 0 then none
    else
      let dw_dt := (motor_torque - m.B * m.state - load_torque) / m.J
      let state2 := m.state + dw_dt * dt
      some ({ m with current := current2, state := state2 }, state2)

/-- TankSystem attributes, as set by __init__ (no validation of the
tank_area divisor). -/
structure TankSystem where
  state : ℚ
  initial_state : ℚ
  area : ℚ
  k_outlet : ℚ
  max_level : ℚ
  deriving DecidableEq

/-- TankSystem.__init__: stores the parameters unchecked. -/
def mkTankSystem (tank_area outlet_coefficient initial_level max_level : ℚ) :
    TankSystem :=
  { state := initial_level, initial_state := initial_level,
    area := tank_area, k_outlet := outlet_coefficient, max_level := max_level }

/-- TankSystem.reset. -/
def TankSystem.reset (s : TankSystem) : TankSystem :=
  { s with state := s.initial_state }

/-- TankSystem.update: zero out a negative stored level, Euler-integrate
dh/dt = (inflow - k sqrt(max(h,0))) / A, then clamp the result into the
interval from 0 to max_level.  sq stands in for math.sqrt; none models the
ZeroDivisionError when area is zero. -/
def TankSystem.update (s : TankSystem) (sq : ℚ → ℚ) (inflow_rate dt : ℚ) :
    Option (TankSystem × ℚ) :=
  let state0 := if s.state < 0 then 0 else s.state
  let outflow_rate := s.k_outlet * sq (max state0 0)
  if s.area = 0 then none
  else
    let dh_dt := (inflow_rate - outflow_rate) / s.area
    let state1 := state0 + dh_dt * dt
    let state2 := max 0 (min state1 s.max_level)
    some ({ s with state := state2 }, state2)

/-! ## Claims C4, C5 -/

/-- Claim C4: for a tank with nonnegative max_level (and a nonzero area,
without which the update raises a division fault), every update succeeds,
returns exactly the newly stored level, and that level lies inside the
interval from 0 to max_level, for every square-root function, every inflow
and every dt.  In particular the stored level satisfies the clamp invariant
on every step, whether or not the starting state was inside the interval. -/
theorem c4_tank_clamp (tk : TankSystem) (sq : ℚ → ℚ) (inflow dt : ℚ)
    (hml : 0 ≤ tk.max_level) (hst : 0 ≤ tk.state ∧ tk.state ≤ tk.max_level)
    (ha : tk.area ≠ 0) :
    ∃ tk2 lvl, tk.update sq inflow dt = some (tk2, lvl) ∧
      lvl = tk2.state ∧ 0 ≤ tk2.state ∧ tk2.state ≤ tk.max_level ∧
      tk2.max_level = tk.max_level := by
  obtain ⟨h0, hM⟩ := hst
  have hneg : ¬ (tk.state < 0) := not_lt.mpr h0
  refine ⟨{ tk with state := max 0 (min (tk.state
      + (inflow - tk.k_outlet * sq (max tk.state 0)) / tk.area * dt) tk.max_level) },
    max 0 (min (tk.state
      + (inflow - tk.k_outlet * sq (max tk.state 0)) / tk.area * dt) tk.max_level),
    ?_, rfl, le_max_left 0 _, max_le hml (min_le_right _ _), rfl⟩
  simp only [TankSystem.update, if_neg hneg, if_neg ha]

/-- Witness for C4: a concrete tank of area 1, level 5, max level 10,
stepped with inflow 3 over dt 2 under the identity square-root stub. -/
theorem c4_tank_clamp_witness :
    ∃ tk2 lvl,
      (mkTankSystem 1 (1/10) 5 10).update (fun q => q) 3 2 = some (tk2, lvl) ∧
      lvl = tk2.state ∧ 0 ≤ tk2.state ∧
      tk2.state ≤ (mkTankSystem 1 (1/10) 5 10).max_level ∧
      tk2.max_level = (mkTankSystem 1 (1/10) 5 10).max_level :=
  c4_tank_clamp (mkTankSystem 1 (1/10) 5 10) (fun q => q) 3 2
    (by norm_num [mkTankSystem]) (by norm_num [mkTankSystem])
    (by norm_num [mkTankSystem])

/-- Claim C5 (evaluation at the failing inputs): none of the plant
constructors rejects a zero divisor parameter.  A FirstOrderSystem with
time_constant 0, a MotorModel with inductance 0 or inertia 0 and a
TankSystem with tank_area 0 are all constructed successfully, and the very
first update on each raises an unguarded division fault (modelled as
none), contradicting the required construction-time rejection. -/
theorem c5_zero_divisor_unguarded :
    (mkFirstOrderSystem 0 1 0 0).time_constant = 0 ∧
    (mkFirstOrderSystem 0 1 0 0).update 1 (1/100) 0 = none ∧
    (mkMotorModel 1 0 (1/10) (1/100) (1/10) 0 0).L = 0 ∧
    (mkMotorModel 1 0 (1/10) (1/100) (1/10) 0 0).update 1 (1/100) 0 = none ∧
    (mkMotorModel 1 (1/100) (1/10) 0 (1/10) 0 0).J = 0 ∧
    (mkMotorModel 1 (1/100) (1/10) 0 (1/10) 0 0).update 1 (1/100) 0 = none ∧
    (mkTankSystem 0 (1/10) 0 10).area = 0 ∧
    (mkTankSystem 0 (1/10) 0 10).update (fun q => q) 1 (1/100) = none := by
  norm_num [mkFirstOrderSystem, FirstOrderSystem.update, mkMotorModel,
    MotorModel.update, mkTankSystem, TankSystem.update]

/-! ## SimulationResults (src/simulator.py, lines 7-70) -/

/-- The eight parallel series of SimulationResults. -/
structure SimulationResults where
  time : List ℚ
  setpoint : List ℚ
  process_variable : List ℚ
  control_output : List ℚ
  error : List ℚ
  p_component : List ℚ
  i_component : List ℚ
  d_component : List ℚ
  deriving DecidableEq

/-- SimulationResults.__init__: all series empty. -/
def SimulationResults.empty : SimulationResults :=
  { time := [], setpoint := [], process_variable := [], control_output := [],
    error := [], p_component := [], i_component := [], d_component := [] }

/-- SimulationResults.add_data_point: append one sample to every series. -/
def SimulationResults.add_data_point (r : SimulationResults)
    (t sp pv co err p i d : ℚ) : SimulationResults :=
  { time := r.time ++ [t], setpoint := r.setpoint ++ [sp],
    process_variable := r.process_variable ++ [pv],
    control_output := r.control_output ++ [co],
    error := r.error ++ [err],
    p_component := r.p_component ++ [p],
    i_component := r.i_component ++ [i],
    d_component := r.d_component ++ [d] }

/-- The summary mapping built by get_summary on a non-empty run. -/
structure SummaryData where
  iae : ℚ
  ise : ℚ
  mae : ℚ
  rmse : ℚ
  settling_time : Option ℚ
  max_overshoot_percent : ℚ
  final_error : ℚ
  steady_state_error : ℚ

/-- The settling-time scan of get_summary (lines 46-50): walk the index
list (the reversed range of the process-variable indices), and at the first
index whose process value lies strictly outside the tolerance band report
the matching timestamp, with the final timestamp substituted at the last
index exactly as the source conditional does. -/
def settlingScan (pv time : List ℚ) (sp tol : ℚ) : List ℕ → Option ℚ
  | [] => none
  | i :: rest =>
      if tol < |pv.getD i 0 - sp| then
        some (if i < time.length - 1 then time.getD i 0
              else time.getD (time.length - 1) 0)
      else settlingScan pv time sp tol rest

/-- SimulationResults.get_summary.  none models the empty mapping returned
for an empty error series; sq stands in for the square root taken for the
RMSE (the source computes (ise/n) ** 0.5).  The dead local final_value of
the source (computed on line 42 and never read) is omitted, and the list
indexing of the settling scan is modelled totally with getD: every run
built by add_data_point keeps the eight series at equal lengths, so the
defaults are never reached there. -/
def SimulationResults.get_summary (r : SimulationResults) (sq : ℚ → ℚ) :
    Option SummaryData :=
  if r.error = [] then none
  else
    let abs_errors := r.error.map (fun e => |e|)
    let squared_errors := r.error.map (fun e => e ^ 2)
    let setpoint_value := r.setpoint.getLast?.getD 0
    let tolerance := if setpoint_value ≠ 0 then (2/100) * |setpoint_value| else 2/100
    let settling_time := settlingScan r.process_variable r.time setpoint_value
        tolerance (List.range r.process_variable.length).reverse
    let max_overshoot :=
      if setpoint_value ≠ 0 then
        r.process_variable.foldl
          (fun acc pv => max acc (|(pv - setpoint_value) / setpoint_value| * 100)) 0
      else 0
    let n : ℚ := (r.error.length : ℚ)
    some { iae := abs_errors.sum,
           ise := squared_errors.sum,
           mae := abs_errors.sum / n,
           rmse := sq (squared_errors.sum / n),
           settling_time := settling_time,
           max_overshoot_percent := max_overshoot,
           final_error := r.error.getLast?.getD 0,
           steady_state_error := |r.error.getLast?.getD 0| }

/-- The literal run of the spec example: errors 1, 0.5, 0.2, 0.1, 0 at
times 0, 0.1, 0.2, 0.3, 0.4 with setpoint 1 and process value 1 - error. -/
def exampleResults : SimulationResults :=
  ((((SimulationResults.empty.add_data_point 0 1 0 0 1 0 0 0).add_data_point
      (1/10) 1 (1/2) 0 (1/2) 0 0 0).add_data_point
      (2/10) 1 (8/10) 0 (2/10) 0 0 0).add_data_point
      (3/10) 1 (9/10) 0 (1/10) 0 0 0).add_data_point
      (4/10) 1 1 0 0 0 0 0

/-! ## Claim C8 -/

/-- Claim C8: get_summary on empty series returns the empty mapping
(none); on a non-empty error series it returns the sum of absolute errors
as iae, the sum of squared errors as ise, iae over the sample count as
mae, the square root of ise over the sample count as rmse, and the last
error sample as final error; and on the literal spec example the values
are iae 1.8, mae 0.36 and final error 0. -/
theorem c8_summary (sq : ℚ → ℚ) (r : SimulationResults) :
    (r.error = [] → r.get_summary sq = none) ∧
    (∀ h : r.error ≠ [], ∃ s, r.get_summary sq = some s ∧
        s.iae = (r.error.map (fun e => |e|)).sum ∧
        s.ise = (r.error.map (fun e => e ^ 2)).sum ∧
        s.mae = s.iae / (r.error.length : ℚ) ∧
        s.rmse = sq (s.ise / (r.error.length : ℚ)) ∧
        s.final_error = r.error.getLast h) ∧
    ((exampleResults.get_summary sq).map (fun s => s.iae) = some (18/10) ∧
     (exampleResults.get_summary sq).map (fun s => s.mae) = some (36/100) ∧
     (exampleResults.get_summary sq).map (fun s => s.final_error) = some 0) := by
  refine ⟨fun h => by simp [SimulationResults.get_summary, h], fun h => ?_, ?_⟩
  · refine ⟨_, by rw [SimulationResults.get_summary, if_neg h], rfl, rfl, rfl, rfl, ?_⟩
    simp [List.getLast?_eq_getLast r.error h]
  · norm_num [SimulationResults.get_summary, exampleResults,
      SimulationResults.add_data_point, SimulationResults.empty, abs]
    exact ⟨⟨_, ⟨by simp, rfl⟩, rfl⟩, ⟨_, ⟨by simp, rfl⟩, rfl⟩,
      ⟨_, ⟨by simp, rfl⟩, rfl⟩⟩

/-- Witness for C8: the non-empty branch applied to the literal example
run, with the identity stub for the square root. -/
theorem c8_summary_witness :
    ∃ s, exampleResults.get_summary (fun q => q) = some s ∧
      s.iae = (exampleResults.error.map (fun e => |e|)).sum ∧
      s.ise = (exampleResults.error.map (fun e => e ^ 2)).sum ∧
      s.mae = s.iae / (exampleResults.error.length : ℚ) ∧
      s.rmse = (fun q => q) (s.ise / (exampleResults.error.length : ℚ)) ∧
      s.final_error = exampleResults.error.getLast (by
        simp [exampleResults, SimulationResults.add_data_point,
          SimulationResults.empty]) :=
  (c8_summary (fun q => q) exampleResults).2.1 _

/-! ## The plant capability interface

The simulator and the tuner drive an arbitrary plant.  A Plant packages
the operations they use: reset, the update method (with the load-torque
argument that only the motor accepts, defaulted to 0 elsewhere), the state
attribute read at the start of a run, and the flag standing for the
run-time signature inspection with which the simulator decides whether the
disturbance is routed as a load torque or added to the control input. -/

structure Plant (σ : Type) where
  reset : σ → σ
  update : σ → ℚ → ℚ → ℚ → Option (σ × ℚ)
  stateValue : σ → ℚ
  acceptsLoad : Bool

/-- The FirstOrderSystem instance of the plant interface.  Its update has
no load-torque parameter, and the measurement-noise draw is fixed at 0
(the simulator-level and tuner-level claims only drive noiseless plants). -/
def firstOrderPlant : Plant FirstOrderSystem :=
  { reset := FirstOrderSystem.reset,
    update := fun s u dt _ => s.update u dt 0,
    stateValue := fun s => s.state,
    acceptsLoad := false }

/-- The MotorModel instance of the plant interface: the only variant whose
update takes the explicit load-torque argument. -/
def motorPlant : Plant MotorModel :=
  { reset := MotorModel.reset,
    update := fun s u dt load => s.update u dt load,
    stateValue := fun s => s.state,
    acceptsLoad := true }

/-- The TankSystem instance of the plant interface, for a given
square-root function. -/
def tankPlant (sq : ℚ → ℚ) : Plant TankSystem :=
  { reset := TankSystem.reset,
    update := fun s u dt _ => s.update sq u dt,
    stateValue := fun s => s.state,
    acceptsLoad := false }

/-- Python int() applied to a rational: truncation toward zero. -/
def pyInt (q : ℚ) : ℤ :=
  if q < 0 then Int.ceil q else Int.floor q

/-- Python integer modulo: none models the ZeroDivisionError raised when
the modulus is zero; otherwise the sign of the result follows the modulus,
which is Int.fmod. -/
def pyMod (a b : ℤ) : Option ℤ :=
  if b = 0 then none else some (Int.fmod a b)

/-! ## Tuner (src/tuning.py) -/

/-- One gain triple of a tuning result. -/
structure Gains where
  kp : ℚ
  ki : ℚ
  kd : ℚ
  deriving DecidableEq

/-- The mapping returned by the tuning methods.  The alpha, lambda_c and
p_only keys are present only in some methods, hence the Option fields. -/
structure TuningResult where
  process_gain : ℚ
  delay_time : ℚ
  time_constant : ℚ
  alpha : Option ℚ
  lambda_c : Option ℚ
  p_only : Option Gains
  pi : Gains
  pid : Gains
  deriving DecidableEq

/-- The identification loop of ziegler_nichols_open_loop (lines 53-63):
drive the plant with the constant input step_size for n steps of width
sample_time and collect the outputs in order; none propagates a plant
fault. -/
def stepTestLoop (P : Plant σ) : σ → ℚ → ℚ → ℕ → Option (σ × List ℚ)
  | s, _, _, 0 => some (s, [])
  | s, u, dt, n + 1 =>
      match P.update s u dt 0 with
      | none => none
      | some (s2, out) =>
          match stepTestLoop P s2 u dt n with
          | none => none
          | some (s3, outs) => some (s3, out :: outs)

/-- The threshold scans of ziegler_nichols_open_loop (lines 71-74 and
79-82): walk time_data and output_data in lockstep and return the
timestamp paired with the first output at or above the threshold. -/
def firstCrossing : List ℚ → List ℚ → ℚ → Option ℚ
  | t :: ts, v :: vs, thr => if thr ≤ v then some t else firstCrossing ts vs thr
  | _, _, _ => none

/-- The identification part of ziegler_nichols_open_loop (lines 45-90):
reset the plant, run the step test, then read off the process gain, the
delay time (defaulted to 0) and the time constant (defaulted to
test_duration).  none models a plant fault during the test or the
IndexError raised by output_data[-1] on a zero-step test.  The P-only
controller and the simulator the source constructs on lines 42-43 are
never used by the method and are omitted. -/
def znIdentify (P : Plant σ) (s0 : σ) (sample_time step_size test_duration : ℚ) :
    Option (ℚ × ℚ × ℚ) :=
  let n := (pyInt (test_duration / sample_time)).toNat
  match stepTestLoop P (P.reset s0) step_size sample_time n with
  | none => none
  | some (_, output_data) =>
      let time_data := (List.range n).map (fun i : ℕ => (i : ℚ) * sample_time)
      match output_data.getLast? with
      | none => none
      | some steady_state_value =>
          let delay_time :=
            (firstCrossing time_data output_data ((1/10) * steady_state_value)).getD 0
          let time_constant :=
            match firstCrossing time_data output_data
                ((632/1000) * steady_state_value) with
            | some t => t - delay_time
            | none => test_duration
          let process_gain :=
            if step_size ≠ 0 then steady_state_value / step_size else 1
          some (process_gain, delay_time, time_constant)

/-- The rule-synthesis part of ziegler_nichols_open_loop (lines 92-118).
When the characteristics are usable the classical reaction-curve formulas
are applied (none models the ZeroDivisionError raised by 1.0 / (K L / T)
when the identified process gain is zero); otherwise the fixed fallback
constants are returned. -/
def znRules (process_gain delay_time time_constant : ℚ) : Option TuningResult :=
  if 0 < delay_time ∧ 0 < time_constant then
    if process_gain * delay_time / time_constant = 0 then none
    else
      let kp_p := 1 / (process_gain * delay_time / time_constant)
      let kp_pi := (9/10) / (process_gain * delay_time / time_constant)
      let ki_pi := kp_pi / ((33/10) * delay_time)
      let kp_pid := (12/10) / (process_gain * delay_time / time_constant)
      let ki_pid := kp_pid / (2 * delay_time)
      let kd_pid := kp_pid * (1/2) * delay_time
      some { process_gain := process_gain, delay_time := delay_time,
             time_constant := time_constant, alpha := none, lambda_c := none,
             p_only := some { kp := kp_p, ki := 0, kd := 0 },
             pi := { kp := kp_pi, ki := ki_pi, kd := 0 },
             pid := { kp := kp_pid, ki := ki_pid, kd := kd_pid } }
  else
    some { process_gain := process_gain, delay_time := delay_time,
           time_constant := time_constant, alpha := none, lambda_c := none,
           p_only := some { kp := 1, ki := 0, kd := 0 },
           pi := { kp := 1, ki := 1/10, kd := 0 },
           pid := { kp := 1, ki := 1/10, kd := 1/100 } }

/-- PIDTuner.ziegler_nichols_open_loop: identification followed by rule
synthesis. -/
def znOpenLoop (P : Plant σ) (s0 : σ) (sample_time step_size test_duration : ℚ) :
    Option TuningResult :=
  match znIdentify P s0 sample_time step_size test_duration with
  | none => none
  | some (process_gain, delay_time, time_constant) =>
      znRules process_gain delay_time time_constant

/-- PIDTuner.cohen_coon_tuning: rerun the Ziegler-Nichols identification,
return its result unchanged when the characteristics are degenerate
(L at most 0 or T at most 0), and otherwise apply the Cohen-Coon formulas
(none models the ZeroDivisionError raised when the identified process gain
is zero, the only way a divisor can vanish once L and T are positive). -/
def cohenCoonTuning (P : Plant σ) (s0 : σ)
    (sample_time step_size test_duration : ℚ) : Option TuningResult :=
  match znOpenLoop P s0 sample_time step_size test_duration with
  | none => none
  | some zn =>
      let K := zn.process_gain
      let L := zn.delay_time
      let T := zn.time_constant
      if L ≤ 0 ∨ T ≤ 0 then some zn
      else
        let alpha := L / T
        if K * alpha = 0 then none
        else
          let kp_p := (103/100 + (35/100) * alpha) / (K * alpha)
          let kp_pi := (9/10 + (83/1000) * alpha) / (K * alpha)
          let ki_pi := kp_pi * (127/100 + (6/10) * alpha)
              / (L * (1 + (3/10) * alpha))
          let kp_pid := (135/100 + (25/100) * alpha) / (K * alpha)
          let ki_pid := kp_pid * (135/100 + (25/100) * alpha)
              / (L * (54/100 + (33/100) * alpha))
          let kd_pid := kp_pid * L * (1/2 - (15/100) * alpha)
              / (135/100 + (25/100) * alpha)
          some { process_gain := K, delay_time := L, time_constant := T,
                 alpha := some alpha, lambda_c := none,
                 p_only := some { kp := kp_p, ki := 0, kd := 0 },
                 pi := { kp := kp_pi, ki := ki_pi, kd := 0 },
                 pid := { kp := kp_pid, ki := ki_pid, kd := kd_pid } }

/-- PIDTuner.imc_tuning: rerun the Ziegler-Nichols identification, choose
the closed-loop time constant, and branch on K nonzero and lambda positive
(NOT on L and T).  Each division of the source is guarded: none models the
ZeroDivisionError it raises, in source order, so a zero identified time
constant raises at ki = 1 / T. -/
def imcTuning (P : Plant σ) (s0 : σ) (sample_time : ℚ)
    (desired_closed_loop_time_constant : Option ℚ)
    (step_size test_duration : ℚ) : Option TuningResult :=
  match znOpenLoop P s0 sample_time step_size test_duration with
  | none => none
  | some zn =>
      let K := zn.process_gain
      let L := zn.delay_time
      let T := zn.time_constant
      let lambda_c :=
        match desired_closed_loop_time_constant with
        | none => max L (1/10)
        | some l => l
      if K ≠ 0 ∧ 0 < lambda_c then
        if K * (lambda_c + L) = 0 then none
        else
          let kp := T / (K * (lambda_c + L))
          if T = 0 then none
          else
            let ki := 1 / T
            if K * (lambda_c + (1/2) * L) = 0 then none
            else
              let kp_with_d := (T + (1/2) * L) / (K * (lambda_c + (1/2) * L))
              if T + (1/2) * L = 0 then none
              else
                let ki_with_d := 1 / (T + (1/2) * L)
                if 2 * T + L = 0 then none
                else
                  let kd_with_d := (T * L) / (2 * T + L)
                  some { process_gain := K, delay_time := L, time_constant := T,
                         alpha := none, lambda_c := some lambda_c,
                         p_only := none,
                         pi := { kp := kp, ki := ki, kd := 0 },
                         pid := { kp := kp_with_d, ki := ki_with_d,
                                  kd := kd_with_d } }
      else
        some { process_gain := K, delay_time := L, time_constant := T,
               alpha := none, lambda_c := some lambda_c,
               p_only := none,
               pi := { kp := 1/10, ki := 1/10, kd := 0 },
               pid := { kp := 1/10, ki := 1/10, kd := 1/10 } }

/-- The plant with which the degenerate identification is exhibited: a
first-order system whose time constant equals the sampling period, so the
very first test output already sits at the steady state and both
thresholds are crossed at time 0. -/
def znTestSystem : FirstOrderSystem := mkFirstOrderSystem (1/100) 1 0 0

/-! ## Claim C6 -/

/-- Counterexample for C6: the Ziegler-Nichols identification against
znTestSystem (sample time 1/100, step size 1, test duration 1/20) yields
delay time 0 and time constant 0 - a degenerate identification - yet
imc_tuning does not fall back to constant gains: it raises an unguarded
ZeroDivisionError at ki = 1 / T (modelled as none), because its fallback
guard tests K and lambda rather than L and T. -/
theorem c6_counterexample :
    (znOpenLoop firstOrderPlant znTestSystem (1/100) 1 (1/20)).map
        (fun r => (r.delay_time, r.time_constant)) = some (0, 0) ∧
    imcTuning firstOrderPlant znTestSystem (1/100) none 1 (1/20) = none := by
  norm_num [znOpenLoop, imcTuning, znIdentify, znRules, stepTestLoop,
    firstOrderPlant, znTestSystem, mkFirstOrderSystem, FirstOrderSystem.reset,
    FirstOrderSystem.update, firstCrossing, pyInt, List.range_succ]

/-- Claim C6 as amended: when the identification behind a successful
ziegler_nichols_open_loop call is degenerate (delay time at most 0 or time
constant at most 0), that call returns the fixed fallback gain sets for
its three rule families, and cohen_coon_tuning returns that same fallback
result; imc_tuning however keys its fallback on the process gain and the
closed-loop time constant instead, and with a nonzero process gain and a
zero identified time constant it raises a ZeroDivisionError (none) rather
than returning a gain set. -/
theorem c6_fallbacks (σ : Type) (P : Plant σ) (s0 : σ) (st ss td : ℚ)
    (r : TuningResult)
    (hzn : znOpenLoop P s0 st ss td = some r)
    (hdeg : r.delay_time ≤ 0 ∨ r.time_constant ≤ 0) :
    (r.p_only = some { kp := 1, ki := 0, kd := 0 } ∧
     r.pi = { kp := 1, ki := 1/10, kd := 0 } ∧
     r.pid = { kp := 1, ki := 1/10, kd := 1/100 }) ∧
    cohenCoonTuning P s0 st ss td = some r ∧
    (r.time_constant = 0 → r.process_gain ≠ 0 →
        imcTuning P s0 st none ss td = none) := by
  have hcc : cohenCoonTuning P s0 st ss td = some r := by
    unfold cohenCoonTuning
    rw [hzn]
    simp only [if_pos hdeg]
  have himc : r.time_constant = 0 → r.process_gain ≠ 0 →
      imcTuning P s0 st none ss td = none := by
    intro hT hK
    unfold imcTuning
    rw [hzn]
    have hlam : 0 < max r.delay_time (1/10 : ℚ) :=
      lt_of_lt_of_le (by norm_num) (le_max_right _ _)
    simp only [if_pos (And.intro hK hlam)]
    by_cases hdiv : r.process_gain * (max r.delay_time (1/10 : ℚ) + r.delay_time) = 0
    · simp only [if_pos hdiv]
    · simp only [if_neg hdiv, if_pos hT]
  refine ⟨?_, hcc, himc⟩
  unfold znOpenLoop at hzn
  rcases hI : znIdentify P s0 st ss td with _ | ⟨K, L, T⟩
  · rw [hI] at hzn
    exact absurd hzn (by simp)
  · rw [hI] at hzn
    simp only at hzn
    unfold znRules at hzn
    by_cases hpos : 0 < L ∧ 0 < T
    · rw [if_pos hpos] at hzn
      by_cases hdiv : K * L / T = 0
      · rw [if_pos hdiv] at hzn
        exact absurd hzn (by simp)
      · rw [if_neg hdiv] at hzn
        have hr := Option.some.inj hzn
        rw [← hr] at hdeg
        rcases hdeg with h | h
        · exact absurd hpos.1 (not_lt.mpr h)
        · exact absurd hpos.2 (not_lt.mpr h)
    · rw [if_neg hpos] at hzn
      have hr := Option.some.inj hzn
      rw [← hr]
      exact ⟨rfl, rfl, rfl⟩

/-- Witness for C6 applied to the degenerate identification produced by
znTestSystem. -/
theorem c6_fallbacks_witness :
    (({ process_gain := 1, delay_time := 0, time_constant := 0,
        alpha := none, lambda_c := none,
        p_only := some { kp := 1, ki := 0, kd := 0 },
        pi := { kp := 1, ki := 1/10, kd := 0 },
        pid := { kp := 1, ki := 1/10, kd := 1/100 } : TuningResult }).p_only
          = some { kp := 1, ki := 0, kd := 0 } ∧
     ({ process_gain := 1, delay_time := 0, time_constant := 0,
        alpha := none, lambda_c := none,
        p_only := some { kp := 1, ki := 0, kd := 0 },
        pi := { kp := 1, ki := 1/10, kd := 0 },
        pid := { kp := 1, ki := 1/10, kd := 1/100 } : TuningResult }).pi
          = { kp := 1, ki := 1/10, kd := 0 } ∧
     ({ process_gain := 1, delay_time := 0, time_constant := 0,
        alpha := none, lambda_c := none,
        p_only := some { kp := 1, ki := 0, kd := 0 },
        pi := { kp := 1, ki := 1/10, kd := 0 },
        pid := { kp := 1, ki := 1/10, kd := 1/100 } : TuningResult }).pid
          = { kp := 1, ki := 1/10, kd := 1/100 }) ∧
    cohenCoonTuning firstOrderPlant znTestSystem (1/100) 1 (1/20)
      = some { process_gain := 1, delay_time := 0, time_constant := 0,
               alpha := none, lambda_c := none,
               p_only := some { kp := 1, ki := 0, kd := 0 },
               pi := { kp := 1, ki := 1/10, kd := 0 },
               pid := { kp := 1, ki := 1/10, kd := 1/100 } } ∧
    (({ process_gain := 1, delay_time := 0, time_constant := 0,
        alpha := none, lambda_c := none,
        p_only := some { kp := 1, ki := 0, kd := 0 },
        pi := { kp := 1, ki := 1/10, kd := 0 },
        pid := { kp := 1, ki := 1/10, kd := 1/100 } : TuningResult }).time_constant = 0 →
     ({ process_gain := 1, delay_time := 0, time_constant := 0,
        alpha := none, lambda_c := none,
        p_only := some { kp := 1, ki := 0, kd := 0 },
        pi := { kp := 1, ki := 1/10, kd := 0 },
        pid := { kp := 1, ki := 1/10, kd := 1/100 } : TuningResult }).process_gain ≠ 0 →
        imcTuning firstOrderPlant znTestSystem (1/100) none 1 (1/20) = none) :=
  c6_fallbacks FirstOrderSystem firstOrderPlant znTestSystem (1/100) 1 (1/20) _
    (by norm_num [znOpenLoop, znIdentify, znRules, stepTestLoop, firstOrderPlant,
      znTestSystem, mkFirstOrderSystem, FirstOrderSystem.reset,
      FirstOrderSystem.update, firstCrossing, pyInt, List.range_succ])
    (Or.inl (le_refl 0))

/-! ## Claim C7 -/

/-- The step test records exactly one output per step. -/
theorem stepTestLoop_length (P : Plant σ) :
    ∀ (n : ℕ) (s : σ) (u dt : ℚ) (s2 : σ) (outs : List ℚ),
      stepTestLoop P s u dt n = some (s2, outs) → outs.length = n := by
  intro n
  induction n with
  | zero =>
      intro s u dt s2 outs h
      unfold stepTestLoop at h
      have h2 := Option.some.inj h
      rw [← (Prod.mk.injEq _ _ _ _).mp h2 |>.2]
      rfl
  | succ m ih =>
      intro s u dt s2 outs h
      unfold stepTestLoop at h
      rcases hu : P.update s u dt 0 with _ | ⟨s3, out⟩
      · rw [hu] at h
        exact absurd h (by simp)
      · rw [hu] at h
        simp only at h
        rcases hrec : stepTestLoop P s3 u dt m with _ | ⟨s4, outs2⟩
        · rw [hrec] at h
          exact absurd h (by simp)
        · rw [hrec] at h
          simp only at h
          have h2 := Option.some.inj h
          have houts := ((Prod.mk.injEq _ _ _ _).mp h2).2
          rw [← houts]
          simp [ih s3 u dt s4 outs2 hrec]

/-- The lockstep threshold scan returns the timestamp of the first output
at or above the threshold. -/
theorem firstCrossing_some (thr : ℚ) :
    ∀ (outs times : List ℚ) (i : ℕ),
      outs.length ≤ times.length → i < outs.length →
      thr ≤ outs.getD i 0 → (∀ j, j < i → outs.getD j 0 < thr) →
      firstCrossing times outs thr = some (times.getD i 0) := by
  intro outs
  induction outs with
  | nil =>
      intro times i _ hi
      simp at hi
  | cons v vs ih =>
      intro times i hlen hi hcross hbefore
      cases times with
      | nil => simp at hlen
      | cons t ts =>
          unfold firstCrossing
          cases i with
          | zero =>
              rw [List.getD_cons_zero] at hcross
              rw [if_pos hcross, List.getD_cons_zero]
          | succ j =>
              have hv : v < thr := by
                have := hbefore 0 (Nat.succ_pos j)
                rwa [List.getD_cons_zero] at this
              rw [if_neg (not_le.mpr hv), List.getD_cons_succ]
              refine ih ts j (by simpa using hlen) (by simpa using hi)
                (by simpa using hcross) ?_
              intro k hk
              have := hbefore (k + 1) (by omega)
              rwa [List.getD_cons_succ] at this
/-- When no output reaches the threshold the scan reports nothing. -/
theorem firstCrossing_none (thr : ℚ) :
    ∀ (outs times : List ℚ),
      (∀ i, i < outs.length → outs.getD i 0 < thr) →
      firstCrossing times outs thr = none := by
  intro outs
  induction outs with
  | nil =>
      intro times _
      cases times <;> rfl
  | cons v vs ih =>
      intro times hall
      cases times with
      | nil => rfl
      | cons t ts =>
          unfold firstCrossing
          have hv : v < thr := by
            have := hall 0 (Nat.succ_pos _)
            rwa [List.getD_cons_zero] at this
          rw [if_neg (not_le.mpr hv)]
          refine ih ts ?_
          intro i hi
          have := hall (i + 1) (by simpa using hi)
          rwa [List.getD_cons_succ] at this

/-- Reading the time axis of the step test: index i of the mapped range is
the timestamp i times the sample period. -/
theorem timeData_getD (f : ℕ → ℚ) (n i : ℕ) (hi : i < n) :
    ((List.range n).map f).getD i 0 = f i := by
  have hlen : i < ((List.range n).map f).length := by simpa using hi
  rw [List.getD_eq_getElem _ _ hlen]
  simp

/-- Both branches of the rule synthesis carry the identified process
characteristics through into the returned mapping unchanged. -/
theorem znOpenLoop_carries (P : Plant σ) (s0 : σ) (st sz td K L T : ℚ)
    (hId : znIdentify P s0 st sz td = some (K, L, T)) :
    ∀ r, znOpenLoop P s0 st sz td = some r →
      r.process_gain = K ∧ r.delay_time = L ∧ r.time_constant = T := by
  intro r hr
  unfold znOpenLoop at hr
  rw [hId] at hr
  simp only at hr
  unfold znRules at hr
  by_cases hpos : 0 < L ∧ 0 < T
  · rw [if_pos hpos] at hr
    by_cases hdiv : K * L / T = 0
    · rw [if_pos hdiv] at hr
      exact absurd hr (by simp)
    · rw [if_neg hdiv] at hr
      have h2 := Option.some.inj hr
      rw [← h2]
      exact ⟨rfl, rfl, rfl⟩
  · rw [if_neg hpos] at hr
    have h2 := Option.some.inj hr
    rw [← h2]
    exact ⟨rfl, rfl, rfl⟩

/-- Claim C7: a ziegler_nichols_open_loop call whose step test (constant
input step_size for int(test_duration / sample_time) steps) produced the
non-empty output trace outs identifies: process gain K as the last
recorded output over step_size (1 when step_size is 0); delay time L as
the first recorded timestamp at which the output reaches 10 percent of the
last recorded output (0 when never reached); time constant T as the first
timestamp at which the output reaches 63.2 percent of it minus L,
defaulting to test_duration when that threshold is never crossed; and any
successful ziegler_nichols_open_loop result carries exactly these
values. -/
theorem c7_zn_identification (σ : Type) (P : Plant σ) (s0 : σ)
    (sample_time step_size test_duration : ℚ) (sEnd : σ) (outs : List ℚ)
    (hrun : stepTestLoop P (P.reset s0) step_size sample_time
        ((pyInt (test_duration / sample_time)).toNat) = some (sEnd, outs))
    (hne : outs ≠ []) :
    ∃ K L T,
      znIdentify P s0 sample_time step_size test_duration = some (K, L, T) ∧
      K = (if step_size = 0 then 1 else outs.getLast hne / step_size) ∧
      (∀ i : ℕ, i < outs.length →
          (1/10) * outs.getLast hne ≤ outs.getD i 0 →
          (∀ j : ℕ, j < i → outs.getD j 0 < (1/10) * outs.getLast hne) →
          L = (i : ℚ) * sample_time) ∧
      ((∀ i : ℕ, i < outs.length →
          outs.getD i 0 < (1/10) * outs.getLast hne) → L = 0) ∧
      (∀ i : ℕ, i < outs.length →
          (632/1000) * outs.getLast hne ≤ outs.getD i 0 →
          (∀ j : ℕ, j < i → outs.getD j 0 < (632/1000) * outs.getLast hne) →
          T = (i : ℚ) * sample_time - L) ∧
      ((∀ i : ℕ, i < outs.length →
          outs.getD i 0 < (632/1000) * outs.getLast hne) → T = test_duration) ∧
      (∀ r, znOpenLoop P s0 sample_time step_size test_duration = some r →
          r.process_gain = K ∧ r.delay_time = L ∧ r.time_constant = T) := by
  have hlen : outs.length = (pyInt (test_duration / sample_time)).toNat :=
    stepTestLoop_length P _ _ _ _ _ _ hrun
  have hlast : outs.getLast? = some (outs.getLast hne) :=
    List.getLast?_eq_getLast outs hne
  have htlen : outs.length ≤
      (((List.range (pyInt (test_duration / sample_time)).toNat).map
        (fun i : ℕ => (i : ℚ) * sample_time))).length := by
    simp [hlen]
  have hId : znIdentify P s0 sample_time step_size test_duration
      = some (if step_size ≠ 0 then outs.getLast hne / step_size else 1,
          (firstCrossing ((List.range (pyInt (test_duration / sample_time)).toNat).map
              (fun i : ℕ => (i : ℚ) * sample_time)) outs
              ((1/10) * outs.getLast hne)).getD 0,
          (match firstCrossing
              ((List.range (pyInt (test_duration / sample_time)).toNat).map
                (fun i : ℕ => (i : ℚ) * sample_time)) outs
              ((632/1000) * outs.getLast hne) with
           | some t => t - (firstCrossing
              ((List.range (pyInt (test_duration / sample_time)).toNat).map
                (fun i : ℕ => (i : ℚ) * sample_time)) outs
              ((1/10) * outs.getLast hne)).getD 0
           | none => test_duration)) := by
    simp only [znIdentify, hrun, hlast]
  refine ⟨_, _, _, hId, ?_, ?_, ?_, ?_, ?_,
    znOpenLoop_carries P s0 sample_time step_size test_duration _ _ _ hId⟩
  · by_cases h : step_size = 0 <;> simp [h]
  · intro i hi hc hb
    rw [firstCrossing_some ((1/10) * outs.getLast hne) outs _ i htlen hi hc hb]
    simp only [Option.getD_some]
    exact timeData_getD _ _ i (hlen ▸ hi)
  · intro hall
    rw [firstCrossing_none _ outs _ hall]
    rfl
  · intro i hi hc hb
    rw [firstCrossing_some ((632/1000) * outs.getLast hne) outs _ i htlen hi hc hb]
    simp only
    rw [timeData_getD _ _ i (hlen ▸ hi)]
  · intro hall
    rw [firstCrossing_none _ outs _ hall]

/-- Witness for C7: the identification applied to the concrete step test
of znTestSystem, whose recorded trace is five outputs equal to 1. -/
theorem c7_zn_identification_witness :
    ∃ K L T, znIdentify firstOrderPlant znTestSystem (1/100) 1 (1/20)
      = some (K, L, T) ∧ K = 1 ∧ L = 0 ∧ T = 0 := by
  obtain ⟨K, L, T, hId, hK, hL, _, hT, _, _⟩ :=
    c7_zn_identification FirstOrderSystem firstOrderPlant znTestSystem
      (1/100) 1 (1/20)
      { state := 1, initial_state := 0, time_constant := 1/100,
        gain := 1, noise_level := 0 }
      [1, 1, 1, 1, 1]
      (by norm_num [stepTestLoop, firstOrderPlant, znTestSystem,
        mkFirstOrderSystem, FirstOrderSystem.reset, FirstOrderSystem.update,
        pyInt])
      (by simp)
  refine ⟨K, L, T, hId, by simpa using hK, ?_, ?_⟩
  · have := hL 0 (by simp) (by norm_num) (by omega)
    simpa using this
  · have := hT 0 (by simp) (by norm_num) (by omega)
    have hzero : L = 0 := by
      have := hL 0 (by simp) (by norm_num) (by omega)
      simpa using this
    rw [hzero] at this
    simpa using this

/-! ## Claim C9 -/

/-- Counterexample for C9: a controller with kd 1, setpoint 1 and sample
period 1/100, initialized by a compute call at timestamp 0, is in the
initialized state (last_time is recorded), yet get_components returns a D
component of 0 instead of kd times the error change over the configured
sample period (which is -50 here), because the source guards the D term
with the truthiness of the last timestamp and the float 0.0 is falsy. -/
theorem c9_counterexample :
    (((mkPIDController 0 0 1 1 (1/100)).compute 0 0).1).last_time = some 0 ∧
    ((((mkPIDController 0 0 1 1 (1/100)).compute 0 0).1).get_components
        (1/2)).map (fun comps => comps.2.2) = some 0 ∧
    (((mkPIDController 0 0 1 1 (1/100)).compute 0 0).1).kd
        * (((((mkPIDController 0 0 1 1 (1/100)).compute 0 0).1).setpoint - 1/2)
            - (((mkPIDController 0 0 1 1 (1/100)).compute 0 0).1).last_error)
        / (((mkPIDController 0 0 1 1 (1/100)).compute 0 0).1).sample_time
      = -50 ∧
    (0 : ℚ) ≠ -50 := by
  norm_num [mkPIDController, PIDController.compute, PIDController.get_components,
    qTruthy]

/-- Claim C9 as amended: for an initialized controller with a nonzero
configured sample period, when the recorded last timestamp is nonzero
get_components returns P as kp times the current error, I as ki times the
current accumulator, and D as kd times the error change divided by the
CONFIGURED sample period - not the actual dt since the last compute call;
when the recorded last timestamp is exactly 0 the returned D component is
0 instead. -/
theorem c9_components (c : PIDController) (pv lt : ℚ)
    (h : c.last_time = some lt) (hst : c.sample_time ≠ 0) :
    (lt ≠ 0 →
      c.get_components pv
        = some (c.kp * (c.setpoint - pv), c.ki * c.integral,
            c.kd * ((c.setpoint - pv) - c.last_error) / c.sample_time)) ∧
    (lt = 0 →
      c.get_components pv
        = some (c.kp * (c.setpoint - pv), c.ki * c.integral, 0)) := by
  constructor
  · intro hlt
    simp [PIDController.get_components, qTruthy, h, hlt, hst]
  · intro hlt
    simp [PIDController.get_components, qTruthy, h, hlt]

/-- Witness for C9 at a controller initialized at the nonzero timestamp 1
and at one initialized at timestamp 0. -/
theorem c9_components_witness :
    (({ mkPIDController 2 3 5 1 (1/100) with
        last_time := some 1 }).get_components 0
      = some (({ mkPIDController 2 3 5 1 (1/100) with last_time := some 1 }).kp
          * (({ mkPIDController 2 3 5 1 (1/100) with
              last_time := some 1 }).setpoint - 0),
         ({ mkPIDController 2 3 5 1 (1/100) with last_time := some 1 }).ki
          * ({ mkPIDController 2 3 5 1 (1/100) with
              last_time := some 1 }).integral,
         ({ mkPIDController 2 3 5 1 (1/100) with last_time := some 1 }).kd
          * (({ mkPIDController 2 3 5 1 (1/100) with
               last_time := some 1 }).setpoint - 0
             - ({ mkPIDController 2 3 5 1 (1/100) with
               last_time := some 1 }).last_error)
          / ({ mkPIDController 2 3 5 1 (1/100) with
              last_time := some 1 }).sample_time)) ∧
    (({ mkPIDController 2 3 5 1 (1/100) with
        last_time := some 0 }).get_components 0
      = some (({ mkPIDController 2 3 5 1 (1/100) with last_time := some 0 }).kp
          * (({ mkPIDController 2 3 5 1 (1/100) with
              last_time := some 0 }).setpoint - 0),
         ({ mkPIDController 2 3 5 1 (1/100) with last_time := some 0 }).ki
          * ({ mkPIDController 2 3 5 1 (1/100) with
              last_time := some 0 }).integral, 0)) :=
  ⟨(c9_components { mkPIDController 2 3 5 1 (1/100) with
      last_time := some 1 } 0 1 rfl (by norm_num [mkPIDController])).1
        (by norm_num),
   (c9_components { mkPIDController 2 3 5 1 (1/100) with
      last_time := some 0 } 0 0 rfl (by norm_num [mkPIDController])).2 rfl⟩

/-! ## Simulator (src/simulator.py, lines 73-232) -/

/-- PIDSimulator: the controller, the plant with its current state, the
sample time and the optional disturbance and setpoint profile functions
and the measurement-noise level. -/
structure PIDSimulator (σ : Type) where
  plant : Plant σ
  plantState : σ
  controller : PIDController
  sample_time : ℚ
  disturbance_function : Option (ℚ → ℚ)
  setpoint_function : Option (ℚ → ℚ)
  noise_level : ℚ

/-- The body of run_simulation's for loop (lines 155-216), one call per
remaining step.  Per step: push the active setpoint (profile function
first, then the fixed argument), compute the control output, evaluate the
disturbance, update the plant (routing the disturbance as load torque for
a plant that accepts one, otherwise adding it to the control input), add
the measurement-noise draw for this step when the noise level is positive,
recompute the components (whose own division fault would also abort the
run), log the sample, then evaluate the progress indicator
 step % (num_steps // 10)  - pyMod returns none when num_steps // 10 is
zero, modelling the ZeroDivisionError - and advance time by sample_time.
A plant fault also propagates as none. -/
def simLoop (P : Plant σ) (spFn distFn : Option (ℚ → ℚ)) (setpointArg : Option ℚ)
    (noise_level : ℚ) (noiseSeq : ℕ → ℚ) (sample_time : ℚ) (num_steps : ℤ) :
    ℕ → ℕ → PIDController → σ → ℚ → ℚ → SimulationResults →
    Option SimulationResults
  | 0, _, _, _, _, _, results => some results
  | rem + 1, step, ctrl, ps, pv, t, results =>
      let ctrl1 :=
        match spFn with
        | some f => ctrl.set_setpoint (f t)
        | none =>
            match setpointArg with
            | some sp => ctrl.set_setpoint sp
            | none => ctrl
      let cres := ctrl1.compute pv t
      let disturbance :=
        match distFn with
        | some f => f t
        | none => 0
      match (if P.acceptsLoad then P.update ps cres.2 sample_time disturbance
             else P.update ps (cres.2 + disturbance) sample_time 0) with
      | none => none
      | some (ps2, pvRaw) =>
          let pv2 := if 0 < noise_level then pvRaw + noiseSeq (step + 1) else pvRaw
          match cres.1.get_components pv2 with
          | none => none
          | some comps =>
              let results2 := results.add_data_point t cres.1.setpoint pv2 cres.2
                  (cres.1.setpoint - pv2) comps.1 comps.2.1 comps.2.2
              match pyMod (step : ℤ) (Int.fdiv num_steps 10) with
              | none => none
              | some _ =>
                  simLoop P spFn distFn setpointArg noise_level noiseSeq
                    sample_time num_steps rem (step + 1) cres.1 ps2 pv2
                    (t + sample_time) results2

/-- PIDSimulator.run_simulation: reset the controller and the plant, read
the initial process value (with the initial noise draw when the noise
level is positive), compute num_steps as int(duration / sample_time), and
run the loop from time 0 on empty results. -/
def runSimulation (sim : PIDSimulator σ) (noiseSeq : ℕ → ℚ)
    (duration : ℚ) (setpoint : Option ℚ) : Option SimulationResults :=
  if sim.sample_time = 0 then none
  else simLoop sim.plant sim.setpoint_function sim.disturbance_function setpoint
    sim.noise_level noiseSeq sim.sample_time (pyInt (duration / sim.sample_time))
    (pyInt (duration / sim.sample_time)).toNat 0 sim.controller.reset
    (sim.plant.reset sim.plantState)
    (if 0 < sim.noise_level
     then sim.plant.stateValue (sim.plant.reset sim.plantState) + noiseSeq 0
     else sim.plant.stateValue (sim.plant.reset sim.plantState)) 0
    SimulationResults.empty

/-! ## Claim C10 -/

/-- When the per-step progress divisor num_steps // 10 is zero, the very
first loop iteration fails: either the plant update faults, or the
progress indicator divides by zero. -/
theorem simLoop_fault (P : Plant σ) (spFn distFn : Option (ℚ → ℚ))
    (spArg : Option ℚ) (nl : ℚ) (ns : ℕ → ℚ) (st : ℚ) (num_steps : ℤ)
    (hdiv : Int.fdiv num_steps 10 = 0)
    (m : ℕ) (ctrl : PIDController) (ps : σ) (pv t : ℚ)
    (results : SimulationResults) :
    simLoop P spFn distFn spArg nl ns st num_steps (m + 1) 0 ctrl ps pv t
      results = none := by
  simp only [simLoop]
  split
  · rfl
  · split
    · rfl
    · rw [hdiv]
      simp [pyMod]

/-- Claim C10: run_simulation fails with an unguarded ZeroDivisionError
(none) for every duration and sample time whose computed step count
int(duration / sample_time) lies between 1 and 9 inclusive, because the
progress indicator evaluates step % (num_steps // 10) with
num_steps // 10 equal to 0; such short runs never return results. -/
theorem c10_progress_fault (σ : Type) (sim : PIDSimulator σ) (noiseSeq : ℕ → ℚ)
    (duration : ℚ) (setpoint : Option ℚ)
    (h1 : 1 ≤ pyInt (duration / sim.sample_time))
    (h9 : pyInt (duration / sim.sample_time) ≤ 9) :
    runSimulation sim noiseSeq duration setpoint = none := by
  have hfd : Int.fdiv (pyInt (duration / sim.sample_time)) 10 = 0 := by
    set k := pyInt (duration / sim.sample_time) with hk
    interval_cases k <;> decide
  obtain ⟨m, hm⟩ : ∃ m, (pyInt (duration / sim.sample_time)).toNat = m + 1 :=
    ⟨(pyInt (duration / sim.sample_time)).toNat - 1, by omega⟩
  have hst : ¬ (sim.sample_time = 0) := by
    intro h0
    rw [h0] at h1
    norm_num [pyInt, div_zero] at h1
  unfold runSimulation
  rw [if_neg hst, hm]
  exact simLoop_fault sim.plant sim.setpoint_function sim.disturbance_function
    setpoint sim.noise_level noiseSeq sim.sample_time _ hfd m _ _ _ _ _

/-- The concrete simulator driving the C10 witness: a noiseless
first-order plant under a unit-gain controller, sample time 1. -/
def shortRunSim : PIDSimulator FirstOrderSystem :=
  { plant := firstOrderPlant, plantState := znTestSystem,
    controller := mkPIDController 1 0 0 1 1,
    sample_time := 1, disturbance_function := none,
    setpoint_function := none, noise_level := 0 }

/-- Witness for C10: a 5 second run at sample time 1 computes 5 steps,
and run_simulation fails. -/
theorem c10_progress_fault_witness :
    1 ≤ pyInt ((5 : ℚ) / shortRunSim.sample_time) ∧
    pyInt ((5 : ℚ) / shortRunSim.sample_time) ≤ 9 ∧
    runSimulation shortRunSim (fun _ => 0) 5 (some 1) = none :=
  ⟨by norm_num [pyInt, shortRunSim],
   by norm_num [pyInt, shortRunSim],
   c10_progress_fault FirstOrderSystem shortRunSim (fun _ => 0) 5 (some 1)
     (by norm_num [pyInt, shortRunSim]) (by norm_num [pyInt, shortRunSim])⟩
